import Mathlib

/-!
Verification of the Focus & Per-Stream Control state machine of
src/ui/src/Room.tsx (screego room UI component).

The definitions below are a shallow embedding of the TypeScript source:

- StreamId models the selectedStream values: the distinguished HostStream
  sentinel (a unique Symbol whose toString is "Symbol(mystream)") or a
  remote client stream id string.
- JsKey models the runtime property keys of the isMuted and volumes
  objects: a computed member [selectedStream as string] uses the raw
  value as key, which is the symbol itself for the host stream and the
  string for a client id; the host-stream effect on the other hand
  writes under the string HostStream.toString().
- The hotkey handlers, the sound button onClick, the slider onChange,
  handleStreamSelection and the two roster-driven effects are each
  translated as functions on an explicit component state.
-/

namespace Screego

/-- A stream identity as held in selectedStream: the HostStream symbol
(the local presenter) or a remote client stream id string. -/
inductive StreamId where
  | host : StreamId
  | client : String → StreamId
deriving DecidableEq

/-- JavaScript toString of a selectedStream value: the HostStream symbol
stringifies to "Symbol(mystream)"; a string stringifies to itself. -/
def StreamId.toStr : StreamId → String
  | .host => "Symbol(mystream)"
  | .client s => s

/-- JavaScript truthiness of a selectedStream value: a symbol is truthy;
a string is truthy unless it is empty. -/
def StreamId.truthyB : StreamId → Bool
  | .host => true
  | .client s => !(s == "")

/-- Truthiness of the possibly-undefined selectedStream. -/
def truthyOpt : Option StreamId → Bool
  | none => false
  | some s => s.truthyB

/-- A runtime property key of the isMuted or volumes object: the
HostStream symbol used directly as key, or a string key. -/
inductive JsKey where
  | sym : JsKey
  | str : String → JsKey
deriving DecidableEq

/-- The key produced by the computed member [selectedStream as string]:
the raw value, i.e. the symbol for the host stream, the id string for a
client stream. -/
def keyOf : StreamId → JsKey
  | .host => .sym
  | .client s => .str s

/-- Object spread update: writes value v under key k, keeping all other
keys. -/
def upd {α : Type} (m : JsKey → Option α) (k : JsKey) (v : α) : JsKey → Option α :=
  fun q => if q = k then some v else m q

/-- A room user, reduced to the fields the control logic reads. -/
structure RoomUser where
  id : String
  you : Bool
deriving DecidableEq

/-- state.users.find on the you flag. -/
def youUser (users : List RoomUser) : Option RoomUser :=
  users.find? (fun u => u.you)

/-- The guard value state.users.find(you)?.you used truthily. -/
def youPresent (users : List RoomUser) : Bool :=
  (youUser users).elim false (fun u => u.you)

/-- The component state relevant to the control logic: the focused
stream, the two keyed stores, and the user list. -/
structure RoomState where
  selectedStream : Option StreamId
  isMuted : JsKey → Option Bool
  volumes : JsKey → Option Int
  users : List RoomUser

/-- The self-stream guard of the hotkey handlers (keys m, ArrowUp,
ArrowDown): users.find(you)?.you AND selectedStream toString equals
"Symbol(mystream)". -/
def selfGuard (users : List RoomUser) (sel : StreamId) : Bool :=
  youPresent users && (sel.toStr == "Symbol(mystream)")

/-- The guard of the sound button onClick and of handleVolumeChange:
users.find(you)?.id strictly equals selectedStream.toString(). -/
def idGuard (users : List RoomUser) (sel : StreamId) : Bool :=
  decide ((youUser users).map (fun u => u.id) = some sel.toStr)

/-- The disabled prop shared by the fullscreen button, the sound button
and the volume slider: selectedStream toString equals "Symbol(mystream)"
AND users.find(you)?.you. -/
def selfDisabled (st : RoomState) : Bool :=
  (decide ((st.selectedStream.map StreamId.toStr) = some "Symbol(mystream)"))
    && youPresent st.users

/-- The m hotkey handler: toggles the mute entry of the focused stream
under the raw key, unless blocked by the self guard. -/
def toggleMuteHotkey (st : RoomState) : RoomState :=
  match st.selectedStream with
  | none => st
  | some sel =>
      if sel.truthyB = true ∧ selfGuard st.users sel = false then
        let newMuted := !((st.isMuted (keyOf sel)).getD false)
        { st with isMuted := upd st.isMuted (keyOf sel) newMuted }
      else st

/-- The ArrowUp hotkey handler: volume becomes min(stored-or-100 + 1,
100) under the raw key, unless blocked by the self guard. -/
def volumeUpHotkey (st : RoomState) : RoomState :=
  match st.selectedStream with
  | none => st
  | some sel =>
      if sel.truthyB = true ∧ selfGuard st.users sel = false then
        let newVolume := min (((st.volumes (keyOf sel)).getD 100) + 1) 100
        { st with volumes := upd st.volumes (keyOf sel) newVolume }
      else st

/-- The ArrowDown hotkey handler: volume becomes max(stored-or-100 - 1,
0) under the raw key, unless blocked by the self guard. -/
def volumeDownHotkey (st : RoomState) : RoomState :=
  match st.selectedStream with
  | none => st
  | some sel =>
      if sel.truthyB = true ∧ selfGuard st.users sel = false then
        let newVolume := max (((st.volumes (keyOf sel)).getD 100) - 1) 0
        { st with volumes := upd st.volumes (keyOf sel) newVolume }
      else st

/-- handleVolumeChange, the slider onChange: writes the new value under
the raw key unless the you-user id strictly equals the focused stream
toString. -/
def handleVolumeChange (st : RoomState) (newValue : Int) : RoomState :=
  match st.selectedStream with
  | none => st
  | some sel =>
      if sel.truthyB = true ∧ idGuard st.users sel = false then
        { st with volumes := upd st.volumes (keyOf sel) newValue }
      else st

/-- The sound IconButton onClick: toggles the mute entry under the raw
key unless the you-user id strictly equals the focused stream toString. -/
def soundButtonClick (st : RoomState) : RoomState :=
  match st.selectedStream with
  | none => st
  | some sel =>
      if sel.truthyB = true ∧ idGuard st.users sel = false then
        let newMuted := !((st.isMuted (keyOf sel)).getD false)
        { st with isMuted := upd st.isMuted (keyOf sel) newMuted }
      else st

/-- handleStreamSelection: if a you-user is present and the previous
focus stringifies to "Symbol(mystream)", force the mute entry of the
previous focus (raw key) to true; then set the focus to streamId. -/
def handleStreamSelection (st : RoomState) (streamId : StreamId) : RoomState :=
  match st.selectedStream with
  | none => { st with selectedStream := some streamId }
  | some sel =>
      if youPresent st.users = true ∧ sel.toStr = "Symbol(mystream)" then
        { st with
            isMuted := upd st.isMuted (keyOf sel) true,
            selectedStream := some streamId }
      else { st with selectedStream := some streamId }

/-- The focus-resolution effect on roster changes: keep the host focus
while the host stream is present; keep a client focus still present in
clientStreams; clear a truthy focus when clientStreams is empty;
otherwise select clientStreams[0]?.id. -/
def resolveFocus (prev : Option StreamId) (host : Bool) (clients : List String) :
    Option StreamId :=
  if prev = some StreamId.host ∧ host = true then prev
  else if clients.any (fun id => decide (prev = some (StreamId.client id))) then prev
  else if clients.length = 0 ∧ truthyOpt prev = true then none
  else clients.head?.map StreamId.client

/-- The effect on state.hostStream: when the host stream is present,
writes true under the STRING key "Symbol(mystream)", the value of
HostStream.toString(), not under the symbol key. -/
def onHostStreamEffect (hostStream : Bool) (st : RoomState) : RoomState :=
  if hostStream then
    { st with isMuted := upd st.isMuted (JsKey.str "Symbol(mystream)") true }
  else st

/-- The muted flag applied to the video element: isMuted read under the
raw selectedStream key, defaulting to false; an undefined selectedStream
coerces to the string key "undefined". -/
def effectiveMuted (st : RoomState) : Bool :=
  match st.selectedStream with
  | some sel => (st.isMuted (keyOf sel)).getD false
  | none => (st.isMuted (JsKey.str "undefined")).getD false

/-- findIndex of the focused stream among the client ids: the index, or
-1 when not found. -/
def findIdx (clients : List String) (prev : Option StreamId) : Int :=
  match clients.findIdx? (fun id => decide (prev = some (StreamId.client id))) with
  | some i => (i : Int)
  | none => -1

/-- JavaScript array indexing: undefined outside the bounds. -/
def jsIndex (l : List String) (i : Int) : Option String :=
  if 0 ≤ i then l.get? i.toNat else none

/-- The h / ArrowLeft hotkey (cycle next): with a non-empty client list,
moves to index 0 when at the last index, else to index + 1. Returns none
when the code would throw reading .id of undefined; otherwise some of
the new focus. -/
def cycleNext (clients : List String) (prev : Option StreamId) :
    Option (Option StreamId) :=
  if 0 < clients.length then
    let i := findIdx clients prev
    let nextIndex : Int := if i = (clients.length : Int) - 1 then 0 else i + 1
    (jsIndex clients nextIndex).map (fun id => some (StreamId.client id))
  else some prev

/-- The l / ArrowRight hotkey (cycle previous): with a non-empty client
list, moves to the last index when at index 0, else to index - 1.
Returns none when the code would throw reading .id of undefined;
otherwise some of the new focus. -/
def cyclePrev (clients : List String) (prev : Option StreamId) :
    Option (Option StreamId) :=
  if 0 < clients.length then
    let i := findIdx clients prev
    let previousIndex : Int := if i = 0 then (clients.length : Int) - 1 else i - 1
    (jsIndex clients previousIndex).map (fun id => some (StreamId.client id))
  else some prev

/-- The visibility debounce state of useShowOnMouseMovement: whether a
timeout is pending (timeoutHandle different from 0) and the last value
passed to doShow, i.e. the showControl state. -/
structure VisTimer where
  pending : Bool
  showControl : Bool
deriving DecidableEq

/-- Events of the visibility debounce: a mousemove, or the pending
1000ms timeout firing. -/
inductive VisEvent where
  | mouseMove : VisEvent
  | timerFire : VisEvent
deriving DecidableEq

/-- One step of the visibility debounce: mousemove calls doShow(true)
only when no timeout is pending, then (re)arms the timeout; the timeout
firing resets the handle to 0 and calls doShow(false) and only happens
while pending. -/
def visStep (s : VisTimer) : VisEvent → VisTimer
  | .mouseMove =>
      { pending := true,
        showControl := if s.pending then s.showControl else true }
  | .timerFire =>
      if s.pending then { pending := false, showControl := false } else s

/-- The state on mount: showControl initialised to true and the mount
effect arms the initial 1000ms timeout. -/
def visInit : VisTimer := { pending := true, showControl := true }

/-- The visibility state after a sequence of events from mount. -/
def visRun (evs : List VisEvent) : VisTimer :=
  evs.foldl visStep visInit

/-- controlVisible = showControl OR open OR hoverControl. -/
def controlVisible (showControl dialogOpen hoverControl : Bool) : Bool :=
  showControl || dialogOpen || hoverControl

/-- The everywhere-empty mute store. -/
def emptyMuted : JsKey → Option Bool := fun _ => none

/-- The everywhere-empty volume store. -/
def emptyVol : JsKey → Option Int := fun _ => none

/-- A state in which the local presenter views the own stream: focus is
the host symbol, the user list holds the you-user u1, and the host
effect has already written the string-keyed mute entry. -/
def c1s : RoomState :=
  { selectedStream := some StreamId.host,
    isMuted := upd emptyMuted (JsKey.str "Symbol(mystream)") true,
    volumes := emptyVol,
    users := [{ id := "u1", you := true }] }

/-- Claim C1: with focus on the SELF stream and the local presenter
acting, the slider onChange writes the SELF volume entry and the sound
button onClick toggles the SELF mute entry: their guards compare the
you-user id u1 with the string Symbol(mystream) and therefore pass, so
the mutation logic does not exclude the self stream, only the disabled
prop does; a second click leaves the SELF entry explicitly unmuted, and
the effective video mute of the SELF stream reads false because the
host effect wrote the string key while playback reads the symbol key. -/
theorem c1_self_control_mutation_not_blocked :
    (handleVolumeChange c1s 50).volumes (keyOf StreamId.host) = some 50 ∧
    (soundButtonClick c1s).isMuted (keyOf StreamId.host) = some true ∧
    (soundButtonClick (soundButtonClick c1s)).isMuted (keyOf StreamId.host) =
      some false ∧
    c1s.isMuted (keyOf StreamId.host) = none ∧
    effectiveMuted c1s = false ∧
    selfDisabled c1s = true := by
  decide

/-- Claim C2: cycle-previous on clients [A, B, C] with focus on the SELF
stream, or with no focus, evaluates to none in the model, i.e. the code
computes previousIndex -2 from the findIndex result -1 and throws
reading .id of undefined, instead of wrapping to the last client; by
contrast cycle-next from the same focus is defined and yields the first
client. -/
theorem c2_cycle_previous_throws :
    cyclePrev ["A", "B", "C"] (some StreamId.host) = none ∧
    cyclePrev ["A", "B", "C"] none = none ∧
    cycleNext ["A", "B", "C"] (some StreamId.host) =
      some (some (StreamId.client "A")) := by
  decide

/-- Claim C3, counterexample: from an empty roster with no focus, the
appearance of the host stream leaves the resolved focus none; it does
not become the SELF identity as the claim states. -/
theorem c3_focus_counterexample :
    resolveFocus none true [] = none ∧
    resolveFocus none true [] ≠ some StreamId.host := by
  decide

/-- An initial component state with empty stores, no users and no
focus. -/
def c3s : RoomState :=
  { selectedStream := none,
    isMuted := emptyMuted,
    volumes := emptyVol,
    users := [] }

/-- Claim C3 as amended: starting from clients = [] and no focus, when
the host stream appears the focus stays none while the host effect sets
the string-keyed SELF mute entry to true; when client X then joins the
focus becomes X immediately (rule 3), not SELF; when the host stream is
removed the focus stays X (rule 2). -/
theorem c3_host_scenario_amended :
    resolveFocus none true [] = none ∧
    (onHostStreamEffect true c3s).isMuted (JsKey.str "Symbol(mystream)") =
      some true ∧
    resolveFocus none true ["X"] = some (StreamId.client "X") ∧
    resolveFocus (some (StreamId.client "X")) false ["X"] =
      some (StreamId.client "X") := by
  decide

/-- Claim C4: the focus-resolution effect obeys the priority rules. If
the previous focus is the host identity and the host stream is present,
the result is the host identity; else if the previous focus is a client
id still present in clients, the result is the previous focus
unchanged; else if clients is non-empty the result is its first entry;
else the result is none. -/
theorem c4_resolve_focus_rules (prev : Option StreamId) (host : Bool)
    (clients : List String) :
    (prev = some StreamId.host → host = true →
      resolveFocus prev host clients = some StreamId.host) ∧
    (∀ s, prev = some (StreamId.client s) → s ∈ clients →
      resolveFocus prev host clients = prev) ∧
    (∀ c rest, clients = c :: rest →
      ¬(prev = some StreamId.host ∧ host = true) →
      (∀ s, prev = some (StreamId.client s) → ¬ s ∈ clients) →
      resolveFocus prev host clients = some (StreamId.client c)) ∧
    (clients = [] → ¬(prev = some StreamId.host ∧ host = true) →
      resolveFocus prev host clients = none) := by
  refine ⟨?_, ?_, ?_, ?_⟩
  · intro h1 h2
    subst h1; subst h2
    unfold resolveFocus
    rw [if_pos ⟨rfl, rfl⟩]
  · intro s hprev hmem
    subst hprev
    have h1 : ¬((some (StreamId.client s) : Option StreamId) = some StreamId.host
        ∧ host = true) := by simp
    have h2 : clients.any
        (fun id => decide ((some (StreamId.client s) : Option StreamId) =
          some (StreamId.client id))) = true :=
      List.any_eq_true.mpr ⟨s, hmem, by simp⟩
    unfold resolveFocus
    rw [if_neg h1, if_pos h2]
  · intro c rest hcl h1 h3
    subst hcl
    have hany : ((c :: rest).any
        (fun id => decide (prev = some (StreamId.client id)))) = false := by
      rw [List.any_eq_false]
      intro id hid
      simp only [decide_eq_true_eq]
      intro heq
      exact h3 id heq hid
    unfold resolveFocus
    rw [if_neg h1, if_neg (by simp [hany]), if_neg (by simp)]
    rfl
  · intro hcl h1
    subst hcl
    unfold resolveFocus
    rw [if_neg h1, if_neg (by simp)]
    by_cases ht : truthyOpt prev = true
    · rw [if_pos ⟨rfl, ht⟩]
    · rw [if_neg (by simp [ht])]
      rfl

/-- Claim C4, witness: rule 2 at a concrete input where the previous
focus B is still present at a changed position. -/
theorem c4_resolve_focus_rules_witness :
    ("B" ∈ ["A", "B"]) ∧
    resolveFocus (some (StreamId.client "B")) false ["A", "B"] =
      some (StreamId.client "B") :=
  ⟨by decide,
   (c4_resolve_focus_rules (some (StreamId.client "B")) false ["A", "B"]).2.1
     "B" rfl (by decide)⟩

/-- Claim C5: while a you-user is present (the local presenter is the
acting context) and the focus is the SELF stream, the toggle-mute
hotkey and both volume-step hotkeys leave the whole state, hence the
SELF control entry, unchanged. -/
theorem c5_self_hotkeys_noop (st : RoomState)
    (hyou : youPresent st.users = true)
    (hsel : st.selectedStream = some StreamId.host) :
    toggleMuteHotkey st = st ∧
    volumeUpHotkey st = st ∧
    volumeDownHotkey st = st := by
  have hg : selfGuard st.users StreamId.host = true := by
    simp [selfGuard, hyou, StreamId.toStr]
  refine ⟨?_, ?_, ?_⟩
  · simp [toggleMuteHotkey, hsel, hg]
  · simp [volumeUpHotkey, hsel, hg]
  · simp [volumeDownHotkey, hsel, hg]

/-- A state with SELF focus and the you-user present, for witnesses. -/
def c5s : RoomState :=
  { selectedStream := some StreamId.host,
    isMuted := emptyMuted,
    volumes := emptyVol,
    users := [{ id := "u1", you := true }] }

/-- Claim C5, witness at the concrete state c5s. -/
theorem c5_self_hotkeys_noop_witness :
    youPresent c5s.users = true ∧ toggleMuteHotkey c5s = c5s :=
  ⟨by decide, (c5_self_hotkeys_noop c5s (by decide) rfl).1⟩

/-- Claim C6: handleStreamSelection sets the focus to the given id
unconditionally for every state; and when the previous focus is the
SELF stream and a you-user is present, selecting any stream also forces
the SELF mute entry (symbol key) to true before switching. -/
theorem c6_stream_selection (st : RoomState) (newId : StreamId)
    (hyou : youPresent st.users = true)
    (hsel : st.selectedStream = some StreamId.host) :
    (∀ st2 sid, (handleStreamSelection st2 sid).selectedStream = some sid) ∧
    (handleStreamSelection st newId).selectedStream = some newId ∧
    (handleStreamSelection st newId).isMuted (keyOf StreamId.host) =
      some true := by
  have huncond : ∀ st2 sid,
      (handleStreamSelection st2 sid).selectedStream = some sid := by
    intro st2 sid
    cases h2 : st2.selectedStream with
    | none => simp [handleStreamSelection, h2]
    | some sel =>
        by_cases hc : youPresent st2.users = true ∧ sel.toStr = "Symbol(mystream)"
        · simp [handleStreamSelection, h2, hc]
        · simp [handleStreamSelection, h2, hc]
  refine ⟨huncond, huncond st newId, ?_⟩
  have hc : youPresent st.users = true ∧
      StreamId.toStr StreamId.host = "Symbol(mystream)" := ⟨hyou, rfl⟩
  simp [handleStreamSelection, hsel, hc, upd]

/-- Claim C6, witness: selecting client Y away from SELF focus at the
concrete state c5s. -/
theorem c6_stream_selection_witness :
    youPresent c5s.users = true ∧
    (handleStreamSelection c5s (StreamId.client "Y")).selectedStream =
      some (StreamId.client "Y") ∧
    (handleStreamSelection c5s (StreamId.client "Y")).isMuted
      (keyOf StreamId.host) = some true :=
  ⟨by decide,
   (c6_stream_selection c5s (StreamId.client "Y") (by decide) rfl).2.1,
   (c6_stream_selection c5s (StreamId.client "Y") (by decide) rfl).2.2⟩

/-- Claim C7: when a volume step actually runs on the focused stream
(the self guard passes), the result is clamped to the range 0 to 100:
stepping down at a stored volume of 0 leaves 0, stepping up at 100
leaves 100, an absent entry defaults to 100 before the step, and from
any stored in-range value both steps land in range. -/
theorem c7_volume_step_clamps (st : RoomState) (sel : StreamId)
    (hsel : st.selectedStream = some sel)
    (htr : sel.truthyB = true)
    (hg : selfGuard st.users sel = false) :
    (st.volumes (keyOf sel) = some 0 →
      (volumeDownHotkey st).volumes (keyOf sel) = some 0) ∧
    (st.volumes (keyOf sel) = some 100 →
      (volumeUpHotkey st).volumes (keyOf sel) = some 100) ∧
    (st.volumes (keyOf sel) = none →
      (volumeUpHotkey st).volumes (keyOf sel) = some 100 ∧
      (volumeDownHotkey st).volumes (keyOf sel) = some 99) ∧
    (∀ v : Int, st.volumes (keyOf sel) = some v → 0 ≤ v → v ≤ 100 →
      (volumeUpHotkey st).volumes (keyOf sel) = some (min (v + 1) 100) ∧
      (volumeDownHotkey st).volumes (keyOf sel) = some (max (v - 1) 0) ∧
      0 ≤ min (v + 1) 100 ∧ min (v + 1) 100 ≤ 100 ∧
      0 ≤ max (v - 1) 0 ∧ max (v - 1) 0 ≤ 100) := by
  have hup : (volumeUpHotkey st).volumes (keyOf sel) =
      some (min (((st.volumes (keyOf sel)).getD 100) + 1) 100) := by
    simp [volumeUpHotkey, hsel, htr, hg, upd]
  have hdown : (volumeDownHotkey st).volumes (keyOf sel) =
      some (max (((st.volumes (keyOf sel)).getD 100) - 1) 0) := by
    simp [volumeDownHotkey, hsel, htr, hg, upd]
  refine ⟨?_, ?_, ?_, ?_⟩
  · intro h0
    rw [hdown, h0]
    decide
  · intro h100
    rw [hup, h100]
    decide
  · intro habs
    rw [hup, hdown, habs]
    exact ⟨by decide, by decide⟩
  · intro v hv h0 h100
    rw [hup, hdown, hv]
    refine ⟨rfl, rfl, ?_, ?_, ?_, ?_⟩ <;> omega

/-- A state focused on client A whose stored volume is 0, for the C7
witness. -/
def c7s : RoomState :=
  { selectedStream := some (StreamId.client "A"),
    isMuted := emptyMuted,
    volumes := upd emptyVol (JsKey.str "A") 0,
    users := [] }

/-- Claim C7, witness: stepping down at stored volume 0 leaves 0 at the
concrete state c7s. -/
theorem c7_volume_step_clamps_witness :
    c7s.volumes (keyOf (StreamId.client "A")) = some 0 ∧
    (volumeDownHotkey c7s).volumes (keyOf (StreamId.client "A")) = some 0 :=
  ⟨by decide,
   (c7_volume_step_clamps c7s (StreamId.client "A") rfl (by decide)
     (by decide)).1 (by decide)⟩

/-- Claim C8: cycle-next on clients [A, B, C] moves focus B to C and
wraps focus C to A; from any focus whose findIndex is -1 on a non-empty
client list it yields the first client; and on an empty client list it
is a no-op that leaves the focus unchanged and does not throw. -/
theorem c8_cycle_next :
    cycleNext ["A", "B", "C"] (some (StreamId.client "B")) =
      some (some (StreamId.client "C")) ∧
    cycleNext ["A", "B", "C"] (some (StreamId.client "C")) =
      some (some (StreamId.client "A")) ∧
    (∀ c rest prev, findIdx (c :: rest) prev = -1 →
      cycleNext (c :: rest) prev = some (some (StreamId.client c))) ∧
    (∀ prev, cycleNext [] prev = some prev) := by
  refine ⟨by decide, by decide, ?_, ?_⟩
  · intro c rest prev hfind
    have hlen : (0 : Nat) < (c :: rest).length := by simp
    have hne : ¬(findIdx (c :: rest) prev = ((c :: rest).length : Int) - 1) := by
      rw [hfind]
      simp only [List.length_cons]
      push_cast
      omega
    simp only [cycleNext]
    rw [if_pos hlen, if_neg hne, hfind]
    simp [jsIndex]
  · intro prev
    simp [cycleNext]

/-- Claim C8, witness: from SELF focus (findIndex -1) cycle-next on
[A, B, C] yields the first client A. -/
theorem c8_cycle_next_witness :
    findIdx ["A", "B", "C"] (some StreamId.host) = -1 ∧
    cycleNext ["A", "B", "C"] (some StreamId.host) =
      some (some (StreamId.client "A")) :=
  ⟨by decide,
   c8_cycle_next.2.2.1 "A" ["B", "C"] (some StreamId.host) (by decide)⟩

/-- The visibility invariant: from mount, showControl always equals the
pending flag, i.e. the controls are shown exactly while the 1000ms
quiescence timeout is armed. -/
theorem visFold_inv (evs : List VisEvent) (s : VisTimer)
    (h : s.showControl = s.pending) :
    (evs.foldl visStep s).showControl = (evs.foldl visStep s).pending := by
  induction evs generalizing s with
  | nil => exact h
  | cons e rest ih =>
      refine ih (visStep s e) ?_
      cases e with
      | mouseMove =>
          cases hp : s.pending with
          | false => simp [visStep, hp]
          | true => simp [visStep, hp, h ▸ hp]
      | timerFire =>
          cases hp : s.pending with
          | false => simpa [visStep, hp] using h
          | true => simp [visStep, hp]

/-- Claim C9: for every event sequence from mount, controlVisible is
true exactly when the quiescence timeout is armed (pointer activity
within the window) or the dialog is open or a control is hovered; and
hover or dialog-open each force visibility true independently of the
timer-driven showControl. -/
theorem c9_controls_visible :
    (∀ evs dialogOpen hover,
      controlVisible (visRun evs).showControl dialogOpen hover =
        ((visRun evs).pending || dialogOpen || hover)) ∧
    (∀ sc dialogOpen, controlVisible sc dialogOpen true = true) ∧
    (∀ sc hover, controlVisible sc true hover = true) := by
  refine ⟨?_, ?_, ?_⟩
  · intro evs dialogOpen hover
    unfold controlVisible
    have h : (visRun evs).showControl = (visRun evs).pending :=
      visFold_inv evs visInit rfl
    rw [h]
  · intro sc dialogOpen
    simp [controlVisible]
  · intro sc hover
    simp [controlVisible]

/-- Claim C10: when the focused stream is a remote client whose id is
the literal string Symbol(mystream) and a you-user is present, the
toggle-mute and volume-step hotkeys are blocked by the stringified
sentinel comparison and leave the state, hence that streams control
entry, unchanged. -/
theorem c10_sentinel_collision_blocks (st : RoomState)
    (hyou : youPresent st.users = true)
    (hsel : st.selectedStream = some (StreamId.client "Symbol(mystream)")) :
    toggleMuteHotkey st = st ∧
    volumeUpHotkey st = st ∧
    volumeDownHotkey st = st := by
  have hg : selfGuard st.users (StreamId.client "Symbol(mystream)") = true := by
    simp [selfGuard, hyou, StreamId.toStr]
  refine ⟨?_, ?_, ?_⟩
  · simp [toggleMuteHotkey, hsel, hg]
  · simp [volumeUpHotkey, hsel, hg]
  · simp [volumeDownHotkey, hsel, hg]

/-- A state focused on a remote client whose id collides with the
stringified sentinel, with the you-user present. -/
def c10s : RoomState :=
  { selectedStream := some (StreamId.client "Symbol(mystream)"),
    isMuted := emptyMuted,
    volumes := emptyVol,
    users := [{ id := "u1", you := true }] }

/-- Claim C10, witness at the concrete state c10s. -/
theorem c10_sentinel_collision_blocks_witness :
    youPresent c10s.users = true ∧ toggleMuteHotkey c10s = c10s :=
  ⟨by decide, (c10_sentinel_collision_blocks c10s (by decide) rfl).1⟩

end Screego
